import Mathlib

/-!
# Verification of the sandbox-api-go request pipeline core

Shallow embedding, in Lean 4, of the request-pipeline core of the
`sandbox-api-go` repository: the error taxonomy (`errors` package), the
credential component (`auth/jwt.go`, over an idealised model of the
`golang-jwt/jwt/v5` library), the validation component
(`validation/validation.go`), the auth middleware (`middleware/auth.go`),
the error/observability middleware and panic recovery (`middleware`
package), and the task read path (`handlers/tasks.go`).

Machine integers are modelled as `Int`/`Nat` (no overflow is relevant to
the properties below); fallible Go functions returning `(T, error)` are
modelled with `Except String T` or `Option`; Go `nil`-able pointers with
`Option`.  Fields of Go structs that no verified property touches
(timestamps, free-form detail maps, wrapped causes) are omitted from the
corresponding Lean structures; every field that a property does touch is
carried.
-/

namespace SandboxApi

/-! ## Error taxonomy (`errors` package, file `errors/errors.go`)

Go declares `ErrorCode` and `ErrorType` as string types with named
constants; we keep them as `String` values with the same literals. -/

/-- Go `ValidationError` struct: a field validation error
(`Field`, `Message`; the `Value interface{}` payload is dropped —
no claim inspects it). -/
structure ValidationError where
  field : String
  message : String
  deriving Repr, DecidableEq

/-- Go `AppError` struct: code, message, type (category), HTTP status and the
validation detail list.  `Details`, `Timestamp`, `RequestID` and `Cause`
are carried by the Go struct but never constrain the claims below, and the
builder methods `WithDetails` / `WithCause` / `WithRequestID` touch only
those fields, so they are omitted together with the builders. -/
structure AppError where
  code : String
  message : String
  etype : String
  statusCode : Nat
  validation : List ValidationError := []
  deriving Repr, DecidableEq

/-- Go `NewAppError(code, message, statusCode, errorType)`. -/
def NewAppError (code message : String) (statusCode : Nat) (etype : String) : AppError :=
  { code := code, message := message, etype := etype, statusCode := statusCode }

def NewAuthRequiredError : AppError :=
  NewAppError "AUTH_REQUIRED" "Authentication required" 401 "client_error"

def NewInvalidTokenError : AppError :=
  NewAppError "INVALID_TOKEN" "Invalid or malformed token" 401 "client_error"

def NewTokenExpiredError : AppError :=
  NewAppError "TOKEN_EXPIRED" "Token has expired" 401 "client_error"

def NewInvalidCredentialsError : AppError :=
  NewAppError "INVALID_CREDENTIALS" "Invalid username or password" 401 "client_error"

def NewUserExistsError : AppError :=
  NewAppError "USER_EXISTS" "User already exists" 409 "client_error"

/-- Go `NewValidationError(validationErrors)`: builds the `VALIDATION_FAILED`
AppError and attaches the accumulated violation list. -/
def NewValidationError (validationErrors : List ValidationError) : AppError :=
  { NewAppError "VALIDATION_FAILED" "Input validation failed" 400 "validation_error" with
      validation := validationErrors }

def NewInvalidJSONError : AppError :=
  NewAppError "INVALID_JSON" "Invalid JSON format" 400 "client_error"

def NewMissingFieldError (field : String) : AppError :=
  NewAppError "MISSING_FIELD" ("Missing required field: " ++ field) 400 "validation_error"

def NewInvalidFormatError (field expected : String) : AppError :=
  NewAppError "INVALID_FORMAT"
    ("Invalid format for field " ++ field ++ ", expected: " ++ expected) 400 "validation_error"

def NewNotFoundError (resource : String) : AppError :=
  NewAppError "NOT_FOUND" (resource ++ " not found") 404 "client_error"

def NewForbiddenError : AppError :=
  NewAppError "FORBIDDEN" "Access forbidden" 403 "client_error"

def NewConflictError (message : String) : AppError :=
  NewAppError "CONFLICT" message 409 "client_error"

def NewInternalError : AppError :=
  NewAppError "INTERNAL_ERROR" "Internal server error" 500 "server_error"

def NewDatabaseError : AppError :=
  NewAppError "DATABASE_ERROR" "Database operation failed" 500 "server_error"

def NewServiceUnavailableError : AppError :=
  NewAppError "SERVICE_UNAVAILABLE" "Service temporarily unavailable" 503 "server_error"

def NewMethodNotAllowedError : AppError :=
  NewAppError "METHOD_NOT_ALLOWED" "Method not allowed" 405 "client_error"

/-- The sixteen taxonomy constructors, applied at representative arguments
(the argument of `NewValidationError` / `NewMissingFieldError` /
`NewInvalidFormatError` / `NewNotFoundError` / `NewConflictError` never
influences code, status or category). -/
def allConstructedErrors : List AppError :=
  [ NewAuthRequiredError, NewInvalidTokenError, NewTokenExpiredError,
    NewInvalidCredentialsError, NewUserExistsError,
    NewValidationError [], NewInvalidJSONError,
    NewMissingFieldError "f", NewInvalidFormatError "f" "e",
    NewNotFoundError "r", NewForbiddenError, NewConflictError "m",
    NewInternalError, NewDatabaseError, NewServiceUnavailableError,
    NewMethodNotAllowedError ]

end SandboxApi

namespace SandboxApi

/-! ## Credential component (`auth/jwt.go`)

`GenerateToken` / `ValidateToken` are built on the `golang-jwt/jwt/v5`
library.  The library is modelled as an idealised JWT layer: a signature
is an HMAC over the payload under the used secret and algorithm, taken as
an injective (collision-free) function — modelled by recording
`(secret, alg, payload)` itself; a token carries its declared algorithm,
its claim set and an optional signature (`Option` so that alg "none"
tokens, which carry no signature, are representable).  `jwt.Parse` with a
keyfunc, as in the source: runs the keyfunc (which in `ValidateToken`
rejects any non-HMAC signing method), then verifies the signature with the
returned key, then applies v5's default registered-claims validation,
which rejects a token whose `exp` has passed.  Time is in Unix seconds. -/

/-- The signing algorithms relevant to the claims.  `NoneAlg` is the JWT
"none" algorithm; `RS256` stands for the asymmetric family. -/
inductive SigAlg
  | HS256
  | HS384
  | HS512
  | RS256
  | ES256
  | NoneAlg
  deriving Repr, DecidableEq

/-- Go `jwt.SigningMethodHMAC`: the type assertion
`token.Method.(*jwt.SigningMethodHMAC)` in the keyfunc succeeds exactly on
the HMAC methods. -/
def SigAlg.isHMAC : SigAlg → Bool
  | .HS256 => true
  | .HS384 => true
  | .HS512 => true
  | _ => false

/-- The claim set `jwt.MapClaims` that `GenerateToken` writes:
`user_id`, `username` and `exp` (Unix seconds). -/
structure MapClaims where
  user_id : Int
  username : String
  exp : Int
  deriving Repr, DecidableEq

/-- Idealised MAC value: the HMAC of a payload under a secret and an
algorithm, modelled as the triple itself (an ideal MAC is injective, so
two MACs agree exactly when secret, algorithm and payload agree). -/
structure MacValue where
  secret : String
  alg : SigAlg
  payload : MapClaims
  deriving Repr, DecidableEq

/-- A serialised JWT: declared algorithm (the `alg` header), claim set,
and the signature part (`none` for unsigned / alg "none" tokens). -/
structure Token where
  alg : SigAlg
  claims : MapClaims
  sig : Option MacValue
  deriving Repr, DecidableEq

/-- Go `models.Claims`: what `ValidateToken` returns (`ExpiresAt` kept in
Unix seconds). -/
structure Claims where
  UserID : Int
  Username : String
  ExpiresAt : Int
  deriving Repr, DecidableEq

/-- Go `GenerateToken(user)`: claims `user_id`, `username`,
`exp = now + 24h`, signed with HS256 under the configured secret.
The read of `time.Now()` is the explicit `now` argument. -/
def GenerateToken (jwtSecret : String) (now : Int) (userID : Int)
    (username : String) : Token :=
  let claims : MapClaims := { user_id := userID, username := username, exp := now + 24 * 3600 }
  { alg := .HS256, claims := claims, sig := some ⟨jwtSecret, .HS256, claims⟩ }

/-- Go `ValidateToken(tokenString)`: `jwt.Parse` with a keyfunc that rejects
non-HMAC methods, then signature verification against `jwtSecret`, then
the jwt/v5 default claims validation (valid only while `now < exp`); on
success the claims are repackaged as `models.Claims`. -/
def ValidateToken (jwtSecret : String) (now : Int) (t : Token) :
    Except String Claims :=
  if !t.alg.isHMAC then
    .error "unexpected signing method"
  else if t.sig ≠ some ⟨jwtSecret, t.alg, t.claims⟩ then
    .error "signature is invalid"
  else if !decide (now < t.claims.exp) then
    .error "token has invalid claims: token is expired"
  else
    .ok { UserID := t.claims.user_id, Username := t.claims.username,
          ExpiresAt := t.claims.exp }

/-- An `Except.isOk`-style discriminator used to state failure. -/
def exceptIsError {ε α : Type} : Except ε α → Bool
  | .error _ => true
  | .ok _ => false

/-! ## Validation component (`validation/validation.go`)

Rule values are the `string` case of Go's `interface{}` — every call site
the claims touch passes a string.  Go's `strings.TrimSpace` and byte
length `len` are modelled directly (`goTrimSpace`, UTF-8 byte size);
`unicode.IsLetter` / `IsUpper` / `IsLower` / `IsNumber` are modelled by
their ASCII restrictions (`Char.isAlpha` etc.), which agree with Go on
every ASCII character. -/

/-- Go `strings.TrimSpace`: drop leading and trailing whitespace. -/
def goTrimSpace (s : String) : String :=
  ⟨((s.data.dropWhile Char.isWhitespace).reverse.dropWhile Char.isWhitespace).reverse⟩

/-- A validation rule: `func(value interface{}) *errors.ValidationError`
at string values — `none` is Go `nil` (no violation). -/
def ValidationRule : Type := String → Option ValidationError

/-- Go `Required()`: violation when the trimmed string is empty. -/
def Required : ValidationRule := fun value =>
  if goTrimSpace value = "" then some ⟨"", "This field is required"⟩ else none

/-- Modelled from the Go standard library: `net/mail.ParseAddress`
(RFC 5322 parser, outside this repository) is abstracted to its essential
shape — exactly one `@` separating a nonempty local part from a nonempty
domain. -/
def parseAddressOk (s : String) : Bool :=
  match s.data.splitOn '@' with
  | [localPart, domain] => !localPart.isEmpty && !domain.isEmpty
  | _ => false

/-- Go `Email()`: empty (trimmed) strings are left to `Required()`; otherwise
the address must parse. -/
def Email : ValidationRule := fun value =>
  let str := goTrimSpace value
  if str = "" then none
  else if !parseAddressOk str then some ⟨"", "Must be a valid email address"⟩
  else none

/-- Go `Username()`: empty (trimmed) strings are left to `Required()`;
otherwise length 3–30 bytes, first character a letter, and the whole
string matching `^[a-zA-Z][a-zA-Z0-9_]*$`. -/
def Username : ValidationRule := fun value =>
  let str := goTrimSpace value
  match str.data with
  | [] => none
  | c :: rest =>
      if str.utf8ByteSize < 3 || 30 < str.utf8ByteSize then
        some ⟨"", "Username must be between 3 and 30 characters"⟩
      else if !c.isAlpha then
        some ⟨"", "Username must start with a letter"⟩
      else if !(c.isAlpha && rest.all (fun d => d.isAlpha || d.isDigit || d = '_')) then
        some ⟨"", "Username can only contain letters, numbers, and underscores"⟩
      else none

/-- Go `Password()`: empty strings are left to `Required()`; otherwise length
8–128 bytes and at least one uppercase letter, one lowercase letter and
one digit, reporting the first failing check's message. -/
def Password : ValidationRule := fun value =>
  if value = "" then none
  else if value.utf8ByteSize < 8 then
    some ⟨"", "Password must be at least 8 characters long"⟩
  else if 128 < value.utf8ByteSize then
    some ⟨"", "Password must be no more than 128 characters long"⟩
  else if !(value.data.any Char.isUpper) then
    some ⟨"", "Password must contain at least one uppercase letter"⟩
  else if !(value.data.any Char.isLower) then
    some ⟨"", "Password must contain at least one lowercase letter"⟩
  else if !(value.data.any Char.isDigit) then
    some ⟨"", "Password must contain at least one number"⟩
  else none

/-- Go `Validator.ValidateField(field, value, rules...)`: the loop over the
rules — every rule is applied (no early exit), each violation is stamped
with the field name and appended to the accumulated `v.errors`. -/
def ValidateField (errs : List ValidationError) (field value : String) :
    List ValidationRule → List ValidationError
  | [] => errs
  | rule :: rest =>
      match rule value with
      | some e => ValidateField (errs ++ [{ e with field := field }]) field value rest
      | none => ValidateField errs field value rest

/-- Go `Validator.GetError()`: `nil` when no violation was accumulated,
otherwise the single `NewValidationError` carrying all of them. -/
def GetError (errs : List ValidationError) : Option AppError :=
  if errs.isEmpty then none else some (NewValidationError errs)

/-! ## Auth middleware (`middleware/auth.go`)

The middleware reads the `auth_token` cookie (`none` models Go's
`http.ErrNoCookie`), falls back to the `Authorization` header (`""` models
an absent header, as `Header.Get` returns), and hands the extracted token
string to `auth.ValidateToken`.  The middleware's behaviour depends only
on whether validation succeeds, so it is parameterised over the
`validateToken : String → Except String Claims` function it calls. -/

/-- Go `strings.Split(s, " ")`: split on every single space, keeping empty
parts. -/
def goSplitSpaceAux : List Char → List Char → List String
  | [], acc => [⟨acc.reverse⟩]
  | c :: rest, acc =>
      if c = ' ' then ⟨acc.reverse⟩ :: goSplitSpaceAux rest []
      else goSplitSpaceAux rest (c :: acc)

def goSplitSpace (s : String) : List String := goSplitSpaceAux s.data []

/-- An incoming request, as the middleware sees it. -/
structure HttpRequest where
  cookieAuthToken : Option String
  authorizationHeader : String
  deriving Repr, DecidableEq

/-- Outcome of the wrapped handler chain: either the middleware failed the
request with an AppError, or the wrapped handler was invoked with the
verified claims in the request context. -/
inductive AuthOutcome
  | fail (e : AppError)
  | handlerInvoked (claims : Claims)
  deriving Repr, DecidableEq

/-- The header-fallback branch: absent header fails with `AuthRequired`;
a header not of the exact two-part `Bearer <token>` shape fails with
`InvalidToken`; otherwise the second part is the token. -/
def headerToken (authHeader : String) : Except AppError String :=
  if authHeader = "" then .error NewAuthRequiredError
  else
    match goSplitSpace authHeader with
    | [p0, p1] => if p0 = "Bearer" then .ok p1 else .error NewInvalidTokenError
    | _ => .error NewInvalidTokenError

/-- Go `AuthMiddleware(handler)`: cookie first (taken only when present with
a non-empty value), header fallback otherwise; then `ValidateToken`, a
failure of which becomes `InvalidToken`; on success the handler runs with
the claims. -/
def AuthMiddleware (validateToken : String → Except String Claims)
    (r : HttpRequest) : AuthOutcome :=
  let tokenResult : Except AppError String :=
    match r.cookieAuthToken with
    | some v => if v ≠ "" then .ok v else headerToken r.authorizationHeader
    | none => headerToken r.authorizationHeader
  match tokenResult with
  | .error e => .fail e
  | .ok token =>
      match validateToken token with
      | .error _ => .fail NewInvalidTokenError
      | .ok claims => .handlerInvoked claims

/-! ## Task read path (`handlers/tasks.go`, `getTaskByID`)

The storage collaborator is modelled as a list of task rows; the
parameterised query `SELECT ... WHERE id = $1 AND user_id = $2` returns
the first matching row or the `sql.ErrNoRows` signal (`none`). -/

/-- Go `models.Task` (timestamps dropped — no claim touches them). -/
structure Task where
  id : Int
  title : String
  description : String
  completed : Bool
  user_id : Int
  deriving Repr, DecidableEq

/-- The row query issued by `getTaskByID`: first row matching both the
task id and the requesting user's id. -/
def queryTaskRow (db : List Task) (taskID userID : Int) : Option Task :=
  db.find? (fun t => t.id == taskID && t.user_id == userID)

/-- Go `getTaskByID`: `sql.ErrNoRows` becomes `NewNotFoundError("Task")`;
a found row is returned (encoded to the response). -/
def getTaskByID (db : List Task) (claims : Claims) (taskID : Int) :
    Except AppError Task :=
  match queryTaskRow db taskID claims.UserID with
  | none => .error (NewNotFoundError "Task")
  | some t => .ok t

/-! ## Panic recovery and error emission (`middleware/middleware.go`)

A handler execution either returns (`nil` or an AppError) or panics.
`ErrorMiddleware` writes a returned AppError via `errors.WriteError`;
`PanicRecoveryMiddleware` (outermost wrapper in `main`) recovers a panic
and writes `NewInternalError`.  A response records the HTTP status and the
error code/category of its body. -/

inductive HandlerResult
  | normal (err : Option AppError)
  | panicked (msg : String)
  deriving Repr, DecidableEq

structure HttpResponse where
  status : Nat
  errorCode : Option String
  errorType : Option String
  deriving Repr, DecidableEq

/-- Go `errors.WriteError(w, err)`: status from the AppError, body carrying
its code and category. -/
def writeError (e : AppError) : HttpResponse :=
  ⟨e.statusCode, some e.code, some e.etype⟩

/-- One request through the recovery wrapper around the pipeline: a panic
is recovered and written as `NewInternalError`; a returned AppError is
written by `handleError`; otherwise 200. -/
def PanicRecoveryMiddleware : HandlerResult → HttpResponse
  | .panicked _ => writeError NewInternalError
  | .normal (some e) => writeError e
  | .normal none => ⟨200, none, none⟩

/-- The serving loop: every request of a sequence is served through the
recovery wrapper; a recovered panic ends only its own request. -/
def serveRequests (results : List HandlerResult) : List HttpResponse :=
  results.map PanicRecoveryMiddleware

/-! ## Correlation id generation (`middleware/middleware.go`,
`generateRequestID` and `randomString`)

`generateRequestID` concatenates `time.Now().Format("20060102150405")`
(second resolution), `"-"`, and `randomString(6)`; `randomString` fills
each position with `charset[time.Now().UnixNano() % 62]`.  The clock
readings a call observes are made explicit: the formatted prefix and the
`UnixNano` value read at each loop iteration.  No other input — in
particular no randomness source — enters the computation. -/

structure ClockReadings where
  formattedSecond : String
  unixNanos : List Int
  deriving Repr, DecidableEq

/-- The 62-character charset of `randomString`. -/
def ridCharset : List Char :=
  "abcdefghijklmnopqrstuvwxyzABCDEFGHIJKLMNOPQRSTUVWXYZ0123456789".data

/-- Go `randomString(length)`: despite its name, each byte is
`charset[time.Now().UnixNano() % int64(len(charset))]` — a pure function
of the observed clock values. -/
def randomString (unixNanos : List Int) : String :=
  ⟨unixNanos.map (fun n => ridCharset.getD (n % 62).toNat 'a')⟩

/-- Go `generateRequestID()`: second-resolution prefix, a dash, and the
clock-derived suffix. -/
def generateRequestID (c : ClockReadings) : String :=
  c.formattedSecond ++ "-" ++ randomString c.unixNanos

/-- A validation call: one `(field, value, rules)` triple per
`ValidateField` invocation. -/
def FieldSpec : Type := String × String × List ValidationRule

/-- Running a validator over a sequence of `ValidateField` calls and
extracting `GetError()`, exactly the shape of the `Validate*Request`
functions. -/
def runFields (specs : List FieldSpec) : List ValidationError :=
  specs.foldl (fun acc s => ValidateField acc s.1 s.2.1 s.2.2) []

/-- The violations of one field: every rule applied to the value, keeping
the stamped violations in rule order. -/
def fieldViolations (field value : String) (rules : List ValidationRule) :
    List ValidationError :=
  rules.filterMap (fun rule => (rule value).map (fun e => { e with field := field }))

/-- All violations of a validation call, across every field and every
rule. -/
def allViolations (specs : List FieldSpec) : List ValidationError :=
  specs.flatMap (fun s => fieldViolations s.1 s.2.1 s.2.2)

/-- Go `ValidateRegisterRequest(username, email, password)`. -/
def ValidateRegisterRequest (username email password : String) : Option AppError :=
  let errs := ValidateField [] "username" username [Required, Username]
  let errs := ValidateField errs "email" email [Required, Email]
  let errs := ValidateField errs "password" password [Required, Password]
  GetError errs

/-- C7: every taxonomy constructor returns a fixed (code, status, category)
triple; no code is paired with two distinct HTTP statuses; and the status
assignment is exactly the 400/401/403/404/405/409/500/503 mapping of the
spec. -/
theorem error_taxonomy_status_mapping :
    (∀ e1 ∈ allConstructedErrors, ∀ e2 ∈ allConstructedErrors,
        e1.code = e2.code → e1.statusCode = e2.statusCode) ∧
    (∀ v, (NewValidationError v).code = "VALIDATION_FAILED" ∧
          (NewValidationError v).statusCode = 400 ∧
          (NewValidationError v).etype = "validation_error") ∧
    (∀ f, (NewMissingFieldError f).statusCode = 400) ∧
    (∀ f e, (NewInvalidFormatError f e).statusCode = 400) ∧
    (∀ r, (NewNotFoundError r).code = "NOT_FOUND" ∧
          (NewNotFoundError r).statusCode = 404) ∧
    (∀ m, (NewConflictError m).statusCode = 409) ∧
    NewInvalidJSONError.statusCode = 400 ∧
    NewAuthRequiredError.code = "AUTH_REQUIRED" ∧
    NewAuthRequiredError.statusCode = 401 ∧
    NewInvalidTokenError.statusCode = 401 ∧
    NewTokenExpiredError.statusCode = 401 ∧
    NewInvalidCredentialsError.statusCode = 401 ∧
    NewForbiddenError.statusCode = 403 ∧
    NewMethodNotAllowedError.statusCode = 405 ∧
    NewUserExistsError.statusCode = 409 ∧
    NewInternalError.code = "INTERNAL_ERROR" ∧
    NewInternalError.statusCode = 500 ∧
    NewInternalError.etype = "server_error" ∧
    NewDatabaseError.statusCode = 500 ∧
    NewServiceUnavailableError.statusCode = 503 := by
  refine ⟨by decide, fun v => ⟨rfl, rfl, rfl⟩, fun f => rfl, fun f e => rfl,
    fun r => ⟨rfl, rfl⟩, fun m => rfl, ?_⟩
  refine ⟨rfl, rfl, rfl, rfl, rfl, rfl, rfl, rfl, rfl, rfl, rfl, rfl, rfl, rfl⟩

/-- C7 witness: the quantified clauses instantiated at concrete arguments. -/
theorem error_taxonomy_status_mapping_witness :
    (NewValidationError [⟨"username", "bad"⟩]).statusCode = 400 ∧
    (NewNotFoundError "Task").statusCode = 404 ∧
    NewInternalError.statusCode = NewInternalError.statusCode := by
  refine ⟨(error_taxonomy_status_mapping.2.1 [⟨"username", "bad"⟩]).2.1,
    (error_taxonomy_status_mapping.2.2.2.2.1 "Task").2, ?_⟩
  exact error_taxonomy_status_mapping.1 NewInternalError (by decide)
    NewInternalError (by decide) rfl

/-- C1: issuing a token for (subjectId, subjectName) and verifying it
before the 24-hour expiry returns Claims with the identical subjectId and
subjectName; verifying the same token at any time after the expiry instant
fails with an error. -/
theorem jwt_issue_verify_roundtrip (jwtSecret : String) (userID : Int)
    (username : String) (issuedAt verifyAt : Int) :
    (verifyAt < issuedAt + 24 * 3600 →
      ValidateToken jwtSecret verifyAt
          (GenerateToken jwtSecret issuedAt userID username) =
        .ok { UserID := userID, Username := username,
              ExpiresAt := issuedAt + 24 * 3600 }) ∧
    (issuedAt + 24 * 3600 < verifyAt →
      exceptIsError (ValidateToken jwtSecret verifyAt
          (GenerateToken jwtSecret issuedAt userID username)) = true) := by
  constructor
  · intro hbefore
    have hbefore' : verifyAt < issuedAt + 86400 := by omega
    simp [GenerateToken, ValidateToken, SigAlg.isHMAC, hbefore']
  · intro hafter
    have hnot : issuedAt + 86400 ≤ verifyAt := by omega
    simp [GenerateToken, ValidateToken, SigAlg.isHMAC, hnot, exceptIsError]

/-- C1 witness: at secret "s", user (7, "alice"), issued at time 0,
verification succeeds at time 1000 and fails at time 100000. -/
theorem jwt_issue_verify_roundtrip_witness :
    ValidateToken "s" 1000 (GenerateToken "s" 0 7 "alice") =
        .ok { UserID := 7, Username := "alice", ExpiresAt := 24 * 3600 } ∧
    exceptIsError (ValidateToken "s" 100000 (GenerateToken "s" 0 7 "alice")) = true := by
  refine ⟨?_, ?_⟩
  · have h := (jwt_issue_verify_roundtrip "s" 7 "alice" 0 1000).1 (by decide)
    simpa using h
  · exact (jwt_issue_verify_roundtrip "s" 7 "alice" 0 100000).2 (by decide)

/-- C2: a token signed under any secret other than the configured one
fails verification, whatever its claims or HMAC algorithm; and a token
whose declared algorithm is "none" or any non-HMAC (asymmetric) algorithm
fails verification whatever signature part it carries — `ValidateToken`
never returns Claims in either case. -/
theorem jwt_rejects_wrong_secret_and_non_hmac (jwtSecret otherSecret : String)
    (alg : SigAlg) (claims : MapClaims) (sig : Option MacValue) (now : Int) :
    (otherSecret ≠ jwtSecret →
      exceptIsError (ValidateToken jwtSecret now
          ⟨alg, claims, some ⟨otherSecret, alg, claims⟩⟩) = true) ∧
    (alg.isHMAC = false →
      exceptIsError (ValidateToken jwtSecret now ⟨alg, claims, sig⟩) = true) := by
  constructor
  · intro hne
    by_cases hh : alg.isHMAC
    · have hsig : (some (⟨otherSecret, alg, claims⟩ : MacValue) ≠
          some (⟨jwtSecret, alg, claims⟩ : MacValue)) := by
        intro h
        exact hne (congrArg (fun m => MacValue.secret m)
          (Option.some.inj h))
      simp [ValidateToken, hh, hsig, exceptIsError]
    · simp [ValidateToken, hh, exceptIsError]
  · intro hh
    simp [ValidateToken, hh, exceptIsError]

/-- C2 witness: a token over the right claims but signed with secret "evil"
fails against secret "s"; so does an alg-"none" token with no signature and
an RS256 token carrying a signature under the right secret. -/
theorem jwt_rejects_wrong_secret_and_non_hmac_witness :
    exceptIsError (ValidateToken "s" 0
        ⟨.HS256, ⟨7, "alice", 86400⟩, some ⟨"evil", .HS256, ⟨7, "alice", 86400⟩⟩⟩) = true ∧
    exceptIsError (ValidateToken "s" 0 ⟨.NoneAlg, ⟨7, "alice", 86400⟩, none⟩) = true ∧
    exceptIsError (ValidateToken "s" 0
        ⟨.RS256, ⟨7, "alice", 86400⟩, some ⟨"s", .RS256, ⟨7, "alice", 86400⟩⟩⟩) = true := by
  refine ⟨?_, ?_, ?_⟩
  · exact (jwt_rejects_wrong_secret_and_non_hmac "s" "evil" .HS256
      ⟨7, "alice", 86400⟩ none 0).1 (by decide)
  · exact (jwt_rejects_wrong_secret_and_non_hmac "s" "evil" .NoneAlg
      ⟨7, "alice", 86400⟩ none 0).2 (by decide)
  · exact (jwt_rejects_wrong_secret_and_non_hmac "s" "s" .RS256
      ⟨7, "alice", 86400⟩ (some ⟨"s", .RS256, ⟨7, "alice", 86400⟩⟩) 0).2 (by decide)

/-- The `ValidateField` loop applies every rule and appends every stamped
violation: the loop is the accumulator plus this field's violations. -/
theorem validateField_eq_append (field value : String)
    (rules : List ValidationRule) (errs : List ValidationError) :
    ValidateField errs field value rules = errs ++ fieldViolations field value rules := by
  induction rules generalizing errs with
  | nil => simp [ValidateField, fieldViolations]
  | cons rule rest ih =>
      cases hr : rule value with
      | some e => simp [ValidateField, fieldViolations, hr, ih]
      | none => simp [ValidateField, fieldViolations, hr, ih]

/-- Chaining `ValidateField` calls accumulates the violations of every
field in order. -/
theorem runFields_eq_allViolations (specs : List FieldSpec) :
    runFields specs = allViolations specs := by
  suffices h : ∀ acc : List ValidationError,
      specs.foldl (fun acc s => ValidateField acc s.1 s.2.1 s.2.2) acc =
        acc ++ allViolations specs by
    simpa [runFields] using h []
  induction specs with
  | nil => intro acc; simp [allViolations]
  | cons s rest ih =>
      intro acc
      rw [List.foldl_cons, validateField_eq_append, ih]
      simp [allViolations, List.append_assoc]

/-- C3: a validator run over any sequence of fields and rules applies all
rules to all fields; whenever at least one rule is violated the outcome is
exactly one AppError with code VALIDATION_FAILED, HTTP 400, category
validation_error, whose validation list holds one entry per violated rule
across every field (never only the first violation). -/
theorem validator_accumulates_all_violations (specs : List FieldSpec)
    (h : allViolations specs ≠ []) :
    GetError (runFields specs) =
      some { code := "VALIDATION_FAILED", message := "Input validation failed",
             etype := "validation_error", statusCode := 400,
             validation := allViolations specs } := by
  rw [GetError, runFields_eq_allViolations]
  simp only [List.isEmpty_iff, h, if_false]
  rfl

/-- C3 witness: the registration payload ("ab", "bad", "weak") — invalid
username, email and password — produces, through `ValidateRegisterRequest`,
a single AppError listing violations for all three fields at once. -/
theorem validator_accumulates_all_violations_witness :
    allViolations [("username", "ab", [Required, Username]),
      ("email", "bad", [Required, Email]),
      ("password", "weak", [Required, Password])] ≠ [] ∧
    ValidateRegisterRequest "ab" "bad" "weak" =
      some { code := "VALIDATION_FAILED", message := "Input validation failed",
             etype := "validation_error", statusCode := 400,
             validation :=
               [⟨"username", "Username must be between 3 and 30 characters"⟩,
                ⟨"email", "Must be a valid email address"⟩,
                ⟨"password", "Password must be at least 8 characters long"⟩] } := by
  refine ⟨by decide, ?_⟩
  have h := validator_accumulates_all_violations
    [("username", "ab", [Required, Username]),
     ("email", "bad", [Required, Email]),
     ("password", "weak", [Required, Password])] (by decide)
  have h0 : ValidateRegisterRequest "ab" "bad" "weak" =
      GetError (runFields [("username", "ab", [Required, Username]),
        ("email", "bad", [Required, Email]),
        ("password", "weak", [Required, Password])]) := rfl
  have hv : allViolations [("username", "ab", [Required, Username]),
      ("email", "bad", [Required, Email]),
      ("password", "weak", [Required, Password])] =
      [⟨"username", "Username must be between 3 and 30 characters"⟩,
       ⟨"email", "Must be a valid email address"⟩,
       ⟨"password", "Password must be at least 8 characters long"⟩] := by decide
  rw [h0, h, hv]

/-- C9: for a non-empty password, the `Password` rule reports no violation
exactly when the byte length is between 8 and 128 and the string holds at
least one uppercase letter, one lowercase letter and one digit; for the
empty string it reports no violation (emptiness is left to `Required`). -/
theorem password_strength_rule (s : String) :
    (s ≠ "" →
      (Password s = none ↔
        (8 ≤ s.utf8ByteSize ∧ s.utf8ByteSize ≤ 128 ∧
         (∃ c ∈ s.data, c.isUpper) ∧ (∃ c ∈ s.data, c.isLower) ∧
         (∃ c ∈ s.data, c.isDigit)))) ∧
    Password "" = none := by
  constructor
  · intro hne
    simp only [Password, if_neg hne]
    split_ifs with h1 h2 h3 h4 h5 <;>
      simp_all [List.any_eq_true]
  · rfl

/-- C9 witness: "Passw0rd" passes the strength rule; the empty string is
not reported by it. -/
theorem password_strength_rule_witness :
    Password "Passw0rd" = none ∧ Password "" = none := by
  refine ⟨?_, (password_strength_rule "").2⟩
  exact ((password_strength_rule "Passw0rd").1 (by decide)).mpr (by decide)

/-- C4: a request carrying neither an auth-token cookie nor an
Authorization header fails with the AuthRequired error (code
AUTH_REQUIRED, HTTP 401) and the wrapped handler is never invoked,
whatever the token validator would do. -/
theorem auth_middleware_requires_token
    (validateToken : String → Except String Claims) (r : HttpRequest)
    (hc : r.cookieAuthToken = none) (hh : r.authorizationHeader = "") :
    AuthMiddleware validateToken r = .fail NewAuthRequiredError ∧
    (∀ claims, AuthMiddleware validateToken r ≠ .handlerInvoked claims) ∧
    NewAuthRequiredError.code = "AUTH_REQUIRED" ∧
    NewAuthRequiredError.statusCode = 401 := by
  have h : AuthMiddleware validateToken r = .fail NewAuthRequiredError := by
    simp [AuthMiddleware, hc, hh, headerToken]
  exact ⟨h, fun claims hcontra => by rw [h] at hcontra; exact absurd hcontra (by simp),
    rfl, rfl⟩

/-- C4 witness: the bare request, against a validator that would accept
any token, still fails with AUTH_REQUIRED/401. -/
theorem auth_middleware_requires_token_witness :
    AuthMiddleware (fun _ => .ok ⟨7, "alice", 86400⟩) ⟨none, ""⟩ =
      .fail NewAuthRequiredError ∧
    NewAuthRequiredError.statusCode = 401 := by
  have h := auth_middleware_requires_token (fun _ => .ok ⟨7, "alice", 86400⟩)
    ⟨none, ""⟩ rfl rfl
  exact ⟨h.1, h.2.2.2⟩

/-- C10: when the auth-token cookie is present with a non-empty value the
middleware takes the token from the cookie alone — the outcome is
independent of the Authorization header, and a cookie token that fails
verification yields InvalidToken even if the header carries a valid
bearer token; a cookie with an empty value behaves exactly as no cookie,
so only then does the header fallback apply. -/
theorem auth_middleware_cookie_precedence
    (validateToken : String → Except String Claims)
    (v header1 header2 : String) (hv : v ≠ "") :
    (AuthMiddleware validateToken ⟨some v, header1⟩ =
       AuthMiddleware validateToken ⟨some v, header2⟩) ∧
    (∀ msg, validateToken v = .error msg →
       AuthMiddleware validateToken ⟨some v, header1⟩ =
         .fail NewInvalidTokenError) ∧
    (AuthMiddleware validateToken ⟨some "", header1⟩ =
       AuthMiddleware validateToken ⟨none, header1⟩) := by
  refine ⟨by simp [AuthMiddleware, hv], ?_, by simp [AuthMiddleware]⟩
  intro msg hmsg
  simp [AuthMiddleware, hv, hmsg]

/-- C10 witness: with a validator accepting exactly the token "good", a
request whose cookie holds the bad token "stale" fails with InvalidToken
even though its Authorization header is "Bearer good"; and the
empty-valued cookie falls back to the header. -/
theorem auth_middleware_cookie_precedence_witness :
    AuthMiddleware
        (fun s => if s = "good" then .ok ⟨7, "alice", 86400⟩ else .error "bad")
        ⟨some "stale", "Bearer good"⟩ = .fail NewInvalidTokenError ∧
    AuthMiddleware
        (fun s => if s = "good" then .ok ⟨7, "alice", 86400⟩ else .error "bad")
        ⟨some "", "Bearer good"⟩ =
      AuthMiddleware
        (fun s => if s = "good" then .ok ⟨7, "alice", 86400⟩ else .error "bad")
        ⟨none, "Bearer good"⟩ := by
  have h := auth_middleware_cookie_precedence
    (fun s => if s = "good" then .ok ⟨7, "alice", 86400⟩ else .error "bad")
    "stale" "Bearer good" "Bearer good" (by decide)
  exact ⟨h.2.1 "bad" rfl, h.2.2⟩

/-- C5: when every task row with the requested id belongs to a user other
than the authenticated one, `getTaskByID` returns the notFound error
(HTTP 404, not 403) and never the task data — the same outcome as when no
row with that id exists at all. -/
theorem task_other_owner_not_found (db : List Task) (claims : Claims)
    (taskID : Int)
    (howner : ∀ t ∈ db, t.id = taskID → t.user_id ≠ claims.UserID) :
    getTaskByID db claims taskID = .error (NewNotFoundError "Task") ∧
    (NewNotFoundError "Task").statusCode = 404 ∧
    (NewNotFoundError "Task").statusCode ≠ 403 ∧
    getTaskByID db claims taskID =
      getTaskByID (db.filter (fun t => t.id != taskID)) claims taskID := by
  have hq : queryTaskRow db taskID claims.UserID = none := by
    rw [queryTaskRow, List.find?_eq_none]
    intro t ht
    simp only [Bool.and_eq_true, beq_iff_eq, not_and]
    intro hid
    exact howner t ht hid
  have hq2 : queryTaskRow (db.filter (fun t => t.id != taskID)) taskID
      claims.UserID = none := by
    rw [queryTaskRow, List.find?_eq_none]
    intro t ht
    have hne : t.id ≠ taskID := by
      have := (List.mem_filter.mp ht).2
      simpa using this
    simp [hne]
  refine ⟨by simp [getTaskByID, hq], by decide, by decide, ?_⟩
  simp [getTaskByID, hq, hq2]

/-- C5 witness: user 1 requesting task 10 owned by user 2 gets the 404
notFound outcome, identical to requesting the absent task id 99. -/
theorem task_other_owner_not_found_witness :
    getTaskByID [⟨10, "t", "d", false, 2⟩] ⟨1, "alice", 86400⟩ 10 =
      .error (NewNotFoundError "Task") ∧
    (NewNotFoundError "Task").statusCode = 404 := by
  have h := task_other_owner_not_found [⟨10, "t", "d", false, 2⟩]
    ⟨1, "alice", 86400⟩ 10 (by decide)
  exact ⟨h.1, h.2.1⟩

/-- C6: a handler execution that panics instead of returning a typed
error is intercepted by the recovery wrapper and answered with HTTP 500,
code INTERNAL_ERROR, category server_error; and the serving loop answers
every request of the sequence, so requests after the panic are still
served. -/
theorem panic_recovered_as_internal_error (results : List HandlerResult)
    (i : Nat) (msg : String)
    (hp : results[i]? = some (.panicked msg)) :
    (serveRequests results)[i]? =
      some ⟨500, some "INTERNAL_ERROR", some "server_error"⟩ ∧
    (serveRequests results).length = results.length := by
  constructor
  · simp [serveRequests, List.getElem?_map, hp, PanicRecoveryMiddleware,
      writeError, NewInternalError, NewAppError]
  · simp [serveRequests]

/-- C6 witness: in a sequence where the second request panics, it is
answered 500/INTERNAL_ERROR and the third request is still served
normally. -/
theorem panic_recovered_as_internal_error_witness :
    (serveRequests [.normal none, .panicked "boom", .normal none])[1]? =
      some ⟨500, some "INTERNAL_ERROR", some "server_error"⟩ ∧
    (serveRequests [.normal none, .panicked "boom", .normal none]).length = 3 ∧
    (serveRequests [.normal none, .panicked "boom", .normal none])[2]? =
      some ⟨200, none, none⟩ := by
  have h := panic_recovered_as_internal_error
    [.normal none, .panicked "boom", .normal none] 1 "boom" rfl
  exact ⟨h.1, h.2, rfl⟩

/-- C8 (refuted): `generateRequestID` is a deterministic function of the
observed clock values alone — no randomness enters the suffix, which is
`charset[UnixNano % 62]` per position — so two requests whose clock
readings agree modulo 62 within the same second receive the *same* id:
two distinct sequences of clock readings collide. -/
theorem request_id_clock_collision :
    (⟨"20261011093000", [0, 1, 2, 3, 4, 5]⟩ : ClockReadings) ≠
      ⟨"20261011093000", [62, 63, 64, 65, 66, 67]⟩ ∧
    generateRequestID ⟨"20261011093000", [0, 1, 2, 3, 4, 5]⟩ =
      generateRequestID ⟨"20261011093000", [62, 63, 64, 65, 66, 67]⟩ := by
  decide

end SandboxApi
